import Mathlib

/-!
Verification of the SharedMemory crate (src/lib.rs, module shared_memory).

The Rust struct SharedMemory owns an OS named shared-memory object, a
mapped byte region of length given by its i32 field size, and a raw
heap pointer to the C string holding its name.  We model it in two
layers that together cover all of its fields and methods:

* the byte-level layer (structure SharedMemory below): the i32 size
  field together with the bytes visible through p_buf, over which
  write_data and read_data act;
* the lifecycle layer (SegHandle, OSState, Oracle): the name pointer,
  the linux is_create flag and the OS-visible effects of create, open,
  name and Drop.

Machine arithmetic is made explicit: usize arithmetic wraps modulo
2 ^ 64 (the release-build semantics of the overflowing subtractions the
source performs; debug builds would panic at the same spots, and both
are reported where a claim depends on it), and i32 casts truncate or
sign-extend exactly as in Rust.  A raw-pointer access that falls outside
the mapped region is undefined behaviour; the model returns a dedicated
outOfBounds result there and defines no resulting region.
-/

/-- 2 ^ 64 (as its decimal literal), the modulus of usize arithmetic on
the 64-bit targets the crate is built for. -/
def USIZE : Nat := 18446744073709551616

/-- Wrapping usize subtraction, the release-build meaning of a - b on
usize values (a debug build panics when b > a). -/
def usizeSub (a b : Nat) : Nat := (a % USIZE + (USIZE - b % USIZE)) % USIZE

/-- The Rust cast i32 as usize: sign-extend and reinterpret, i.e. reduce
modulo 2 ^ 64 (written as its decimal literal).  For 0 <= x this is
just x. -/
def i32AsUsize (x : Int) : Nat := (x % 18446744073709551616).toNat

/-- The Rust cast usize as i32: truncate to 32 bits and reinterpret as
signed (2 ^ 32 and 2 ^ 31 written as decimal literals). -/
def usizeAsI32 (n : Nat) : Int :=
  let m := n % 4294967296
  if m < 2147483648 then (m : Int) else (m : Int) - 4294967296

/-- i32::checked_sub: some (a - b) when the difference fits in i32,
none on overflow (the i32 bounds written as decimal literals). -/
def i32CheckedSub (a b : Int) : Option Int :=
  if -2147483648 ≤ a - b ∧ a - b < 2147483648 then some (a - b) else none

/-- The byte-level view of the Rust struct SharedMemory: the i32 field
size and the bytes of the mapped region that p_buf points to.  Each
byte is a Nat below 256; the region has one entry per mapped byte. -/
structure SharedMemory where
  size : Int
  region : List Nat
  deriving DecidableEq

/-- Outcome of SharedMemory::write_data.  The Rust method returns unit;
the constructors record which control path ran and, on the completed
path, the bytes of the region afterwards.

* ok: both raw-pointer writes stayed inside the mapped region and the
  method ran to completion;
* rejected: the early return after the offset < data_size check (an
  eprintln, the region untouched);
* rejectedOverflow: the else branch of the checked_sub match (an
  eprintln, the region untouched);
* outOfBounds: copy_nonoverlapping or write_bytes was issued with a
  range leaving the mapped region — undefined behaviour, no resulting
  region is defined (a debug build already panics on the underflowing
  usize subtraction that leads here). -/
inductive WriteResult where
  | ok (region : List Nat)
  | rejected
  | rejectedOverflow
  | outOfBounds
  deriving DecidableEq

/-- Model of SharedMemory::write_data (src/lib.rs lines 197-214), line
by line:

* data_size := data.len();
* offset := self.size() as usize - data_size   (wrapping usize
  subtraction);
* if offset < data_size: eprintln and return (rejected);
* match self.size.checked_sub(data.len() as i32) with some size:
  copy_nonoverlapping writes data at offsets 0..data_size and
  write_bytes zero-fills the size as usize - data_size bytes starting
  at offset data_size; with none: eprintln and return
  (rejectedOverflow).

The completed path is in bounds exactly when data_size + fill bytes fit
in the mapped region; its result keeps every byte past data_size + fill
unchanged. -/
def SharedMemory.write_data (self : SharedMemory) (data : List Nat) : WriteResult :=
  let data_size := data.length
  let offset := usizeSub (i32AsUsize self.size) data_size
  if offset < data_size then
    .rejected
  else
    match i32CheckedSub self.size (usizeAsI32 data_size) with
    | some size =>
        let fill := usizeSub (i32AsUsize size) data_size
        if data_size + fill ≤ self.region.length then
          .ok (data ++ List.replicate fill 0 ++ self.region.drop (data_size + fill))
        else
          .outOfBounds
    | none => .rejectedOverflow

/-- Outcome of SharedMemory::read_data.  ok gives the returned slice as
a list of bytes; outOfBounds means the backward scan dereferenced an
index outside the mapped region — undefined behaviour (in a debug build
the same spot panics on the underflowing idx decrement). -/
inductive ReadResult where
  | ok (bytes : List Nat)
  | outOfBounds
  deriving DecidableEq

/-- The scan loop of read_data: while idx >= 0 \{ if *dest.add(idx) != 0
\{ break \} ; idx -= 1 \}.  Since idx is a usize the condition idx >= 0 is
always true, so the loop only ends at a break; some (idx + 1) is the
size taken after the break at a non-zero byte.  When idx is 0 and the
byte is zero, idx -= 1 wraps to 2 ^ 64 - 1 and the next dereference is
out of bounds (none); a dereference at an index outside the region is
likewise none. -/
def scanBack (region : List Nat) (idx : Nat) : Option Nat :=
  if h : idx < region.length then
    if region.get ⟨idx, h⟩ ≠ 0 then
      some (idx + 1)
    else
      match idx with
      | 0 => none
      | i + 1 => scanBack region i
  else
    none

/-- Model of SharedMemory::read_data (src/lib.rs lines 216-235): start
the backward scan at self.size() as usize - 1 (wrapping), and on a
break at a non-zero byte return the slice of the first idx + 1 bytes;
otherwise the scan leaves the region. -/
def SharedMemory.read_data (self : SharedMemory) : ReadResult :=
  match scanBack self.region (usizeSub (i32AsUsize self.size) 1) with
  | some sz => .ok (self.region.take sz)
  | none => .outOfBounds

/-! ## Lifecycle layer: create, open, name and Drop on the linux backend

The linux backend of the crate acquires a named object with shm_open,
sizes it with ftruncate, maps it with mmap, and in Drop unmaps it and,
only when is_create holds, removes the name with shm_unlink.  We model
the OS-visible resources of one process and the namespace of named
objects; OS-call failures beyond those the POSIX interface pins down on
the given arguments are chosen by an oracle, so a theorem quantified
over oracles holds on every POSIX-conforming OS behaviour. -/

/-- The errno values the modelled syscalls can produce.  EEXIST from an
exclusive shm_open on a taken name, ENOENT from shm_open without
O_CREAT on a missing name, EINVAL from ftruncate on a negative length
or mmap on a zero length (both mandated by POSIX), EOTHER standing for
any other OS failure the oracle injects. -/
inductive Errno where
  | EEXIST
  | ENOENT
  | EINVAL
  | EOTHER
  deriving DecidableEq

/-- OS-visible resource state: the namespace of shared-memory object
names, and the counts of file descriptors and mappings this process
holds. -/
structure OSState where
  names : List String
  openFds : Nat
  mappings : Nat
  deriving DecidableEq

/-- Chooses the outcome of the OS calls on the failure modes POSIX
leaves open for the arguments the crate passes (resource exhaustion,
permissions, and mmap of a well-formed non-zero length). -/
structure Oracle where
  shmOpenFail : Bool
  ftruncateFail : Bool
  mmapFail : Bool
  deriving DecidableEq

/-- The handle-level view of the Rust struct SharedMemory on linux: the
i32 size field, the string the heap CString behind the name pointer
holds, the is_create flag, and whether that CString buffer is still
live (CString::from_raw has not yet retaken and freed it). -/
structure SegHandle where
  size : Int
  name : String
  is_create : Bool
  nameAllocated : Bool
  deriving DecidableEq

/-- Model of SharedMemory::create for linux (src/lib.rs lines 116-158):

* shm_open(name, O_RDWR | O_CREAT | O_EXCL, 0o600): fails EEXIST when
  the name is taken, otherwise creates the object, enters it in the
  namespace and returns a descriptor (or fails with the oracle);
* ftruncate(fd, size as off_t): EINVAL on a negative length (POSIX),
  or an oracle failure; on failure the code runs close(fd) and returns
  the error — it does not shm_unlink the object it just created;
* mmap(null, size as size_t, ..., fd, 0): EINVAL on length zero
  (POSIX), or an oracle failure; on failure close(fd) and return,
  again without shm_unlink;
* on success the struct is built with is_create = true and a live name
  buffer.

The returned pair is the final OS state and either the constructed
handle or the propagated errno. -/
def linux_create (name : String) (size : Int) (os : OSState) (orc : Oracle) :
    OSState × Except Errno SegHandle :=
  if name ∈ os.names then
    (os, .error .EEXIST)
  else if orc.shmOpenFail then
    (os, .error .EOTHER)
  else
    let os1 : OSState := ⟨name :: os.names, os.openFds + 1, os.mappings⟩
    if size < 0 then
      ({ os1 with openFds := os1.openFds - 1 }, .error .EINVAL)
    else if orc.ftruncateFail then
      ({ os1 with openFds := os1.openFds - 1 }, .error .EOTHER)
    else if i32AsUsize size = 0 then
      ({ os1 with openFds := os1.openFds - 1 }, .error .EINVAL)
    else if orc.mmapFail then
      ({ os1 with openFds := os1.openFds - 1 }, .error .EOTHER)
    else
      ({ os1 with mappings := os1.mappings + 1 }, .ok ⟨size, name, true, true⟩)

/-- Model of SharedMemory::open for linux (src/lib.rs lines 248-284):

* shm_open(name, O_RDWR, 0o600): ENOENT when no object of that name
  exists, or an oracle failure;
* mmap(null, size as size_t, ..., fd, 0): EINVAL on length zero
  (POSIX), or an oracle failure; on failure close(fd) and return;
* on success the struct is built with is_create = false.

No capacity check of any kind is performed: size goes through the
casts straight to the OS calls. -/
def linux_open (name : String) (size : Int) (os : OSState) (orc : Oracle) :
    OSState × Except Errno SegHandle :=
  if name ∉ os.names then
    (os, .error .ENOENT)
  else if orc.shmOpenFail then
    (os, .error .EOTHER)
  else
    let os1 : OSState := ⟨os.names, os.openFds + 1, os.mappings⟩
    if i32AsUsize size = 0 then
      ({ os1 with openFds := os1.openFds - 1 }, .error .EINVAL)
    else if orc.mmapFail then
      ({ os1 with openFds := os1.openFds - 1 }, .error .EOTHER)
    else
      ({ os1 with mappings := os1.mappings + 1 }, .ok ⟨size, name, false, true⟩)

/-- Model of the name method (src/lib.rs lines 58-64).  The method runs
CString::from_raw(self.name), which retakes ownership of the heap
buffer; the reconstructed CString is dropped when the method returns,
freeing the buffer, while the struct keeps the now dangling pointer.
So the call is only defined while the buffer is live, and it leaves the
buffer freed; a later call runs from_raw on freed memory (none,
undefined behaviour). -/
def nameCall (self : SegHandle) : Option (String × SegHandle) :=
  if self.nameAllocated then
    some (self.name, { self with nameAllocated := false })
  else
    none

/-- Model of the Drop impl for linux (src/lib.rs lines 287-307): munmap
the region (p_buf is non-null for every constructed handle), shm_unlink
the name only when is_create holds, and retake the name CString with
from_raw so it is freed.  Both shm_unlink and from_raw read the name
buffer, so the drop is only defined while that buffer is live (none
models the double free after a prior nameCall). -/
def linux_drop (self : SegHandle) (os : OSState) : Option OSState :=
  if self.nameAllocated then
    let os1 : OSState := { os with mappings := os.mappings - 1 }
    some (if self.is_create then
            { os1 with names := os1.names.filter (fun n => n ≠ self.name) }
          else os1)
  else
    none


/-! ## Helper lemmas -/

theorem usizeSub_zero (a : Nat) (h : a < USIZE) : usizeSub a 0 = a := by
  unfold usizeSub USIZE at *
  omega

theorem i32AsUsize_eq_toNat (x : Int) (h0 : 0 ≤ x) (h : x < 18446744073709551616) :
    i32AsUsize x = x.toNat := by
  unfold i32AsUsize
  rw [Int.emod_eq_of_lt h0 h]

/-! ## The claims -/

/-- Claim C1: the spec demands that every payload P with len(P) <= C be
written successfully; the code instead compares capacity - len(P)
against len(P), so it rejects the two-byte payload [1, 1] on a segment
of capacity 2 (the early-return eprintln path runs and nothing is
written). -/
theorem c1_write_within_capacity_is_rejected :
    SharedMemory.write_data ⟨2, [0, 0]⟩ [1, 1] = .rejected := by decide

/-- Claim C2: the spec demands that write(P) then read() return P
exactly when the last byte of P is non-zero; on a fresh segment of
capacity 1 the one-byte payload [5] is rejected by write_data (so the
region stays all zero) and the following read_data scan runs off the
front of the region instead of returning [5]. -/
theorem c2_roundtrip_fails_on_capacity_one :
    SharedMemory.write_data ⟨1, [0]⟩ [5] = .rejected ∧
    SharedMemory.read_data ⟨1, [0]⟩ = .outOfBounds := by decide

/-- Claim C3: the spec demands that a successful write(P) zero-fill
every byte from len(P) through capacity - 1; the code zero-fills only
capacity - 2 * len(P) bytes, so writing [5] over a capacity-3 region
holding [9, 9, 9] completes successfully yet leaves the stale byte 9 at
index 2. -/
theorem c3_tail_byte_left_unzeroed :
    SharedMemory.write_data ⟨3, [9, 9, 9]⟩ [5] = .ok [5, 0, 9] := by decide

/-- Claim C4: the spec demands that read() on an all-zero region return
an empty byte sequence without ever leaving the region; the scan loop
condition idx >= 0 is always true for a usize, so on the all-zero
capacity-4 region the index wraps below zero and the next dereference
is out of bounds (a debug build panics at the decrement). -/
theorem c4_all_zero_read_leaves_region :
    SharedMemory.read_data ⟨4, [0, 0, 0, 0]⟩ = .outOfBounds := by decide

/-- Claim C5: the spec demands that an oversized write leave the region
unchanged and return the typed error TooLarge; write_data returns unit
(there is no error type in the crate), and on the two-byte payload
against a capacity-1 segment the wrapping offset computation slips past
the early check, so copy_nonoverlapping is issued beyond the one-byte
region instead of rejecting the call (a debug build panics at the
offset subtraction). -/
theorem c5_oversized_write_overruns_region :
    SharedMemory.write_data ⟨1, [0]⟩ [1, 1] = .outOfBounds := by decide

/-- Claim C6: the spec demands a repeatable, non-destructive name
accessor; the method retakes the heap buffer with CString::from_raw and
frees it on return while the struct keeps the dangling pointer, so the
first call succeeds but frees the buffer, a second call is a
use-after-free, and the eventual Drop double-frees. -/
theorem c6_name_accessor_is_single_use :
    nameCall ⟨4, "seg", true, true⟩ = some ("seg", ⟨4, "seg", true, false⟩) ∧
    nameCall ⟨4, "seg", true, false⟩ = none ∧
    linux_drop ⟨4, "seg", true, false⟩ ⟨["seg"], 0, 1⟩ = none := by decide

/-- Claim C7, counterexample: when ftruncate fails right after the
exclusive shm_open created the object, create closes the descriptor
but never calls shm_unlink, so the newly created name "x" is left in
the namespace when the error is returned — the claimed rollback of the
named object does not happen. -/
theorem c7_failed_create_leaks_namespace_entry :
    (linux_create "x" 4 ⟨[], 0, 0⟩ ⟨false, true, false⟩).2 = .error .EOTHER ∧
    (linux_create "x" 4 ⟨[], 0, 0⟩ ⟨false, true, false⟩).1.names = ["x"] :=
  ⟨rfl, rfl⟩

/-- Claim C7, amended: on every failure path of create and open the
descriptor and the mapping are released before the error is returned
(the fd and mapping counts return to their initial values, and open
never changes the namespace), but a create that fails after the
exclusive shm_open leaves the newly created named object in the
namespace — the namespace entry is not rolled back. -/
theorem c7_failure_releases_descriptor_and_mapping
    (name : String) (size : Int) (os : OSState) (orc : Oracle) :
    (∀ e, (linux_create name size os orc).2 = .error e →
       (linux_create name size os orc).1.openFds = os.openFds ∧
       (linux_create name size os orc).1.mappings = os.mappings) ∧
    (∀ e, (linux_open name size os orc).2 = .error e →
       (linux_open name size os orc).1.openFds = os.openFds ∧
       (linux_open name size os orc).1.mappings = os.mappings ∧
       (linux_open name size os orc).1.names = os.names) := by
  constructor
  · intro e he
    unfold linux_create at he ⊢
    split_ifs at he ⊢ <;> simp_all
  · intro e he
    unfold linux_open at he ⊢
    split_ifs at he ⊢ <;> simp_all

/-- Witness for c7_failure_releases_descriptor_and_mapping at the
concrete ftruncate failure of the counterexample. -/
theorem c7_failure_releases_descriptor_and_mapping_witness :
    (linux_create "x" 4 ⟨[], 0, 0⟩ ⟨false, true, false⟩).1.openFds = 0 ∧
    (linux_create "x" 4 ⟨[], 0, 0⟩ ⟨false, true, false⟩).1.mappings = 0 :=
  (c7_failure_releases_descriptor_and_mapping "x" 4 ⟨[], 0, 0⟩ ⟨false, true, false⟩).1
    .EOTHER rfl

/-- Claim C8: dropping a segment removes the named object from the
namespace exactly when the segment is the creator.  A creator drop
unlinks the name, so a subsequent open of that name fails ENOENT
(NotFound) whatever the oracle does; an opener drop leaves the
namespace unchanged.  The hypothesis is that the name buffer is still
live, i.e. the destructive name accessor has not been called before
the drop. -/
theorem c8_drop_unlinks_iff_creator
    (os : OSState) (seg : SegHandle) (size : Int) (orc : Oracle)
    (halloc : seg.nameAllocated = true) :
    (seg.is_create = true →
      ∃ os2, linux_drop seg os = some os2 ∧
        seg.name ∉ os2.names ∧
        (linux_open seg.name size os2 orc).2 = .error .ENOENT) ∧
    (seg.is_create = false →
      ∃ os2, linux_drop seg os = some os2 ∧ os2.names = os.names) := by
  constructor
  · intro hc
    refine ⟨⟨os.names.filter (fun n => n ≠ seg.name), os.openFds, os.mappings - 1⟩,
      ?_, ?_, ?_⟩
    · simp [linux_drop, halloc, hc]
    · simp
    · simp [linux_open]
  · intro hc
    refine ⟨⟨os.names, os.openFds, os.mappings - 1⟩, ?_, ?_⟩
    · simp [linux_drop, halloc, hc]
    · rfl

/-- Witness for c8_drop_unlinks_iff_creator: a concrete creator handle
for the name a is dropped, the name leaves the namespace, and the
subsequent open fails ENOENT. -/
theorem c8_drop_unlinks_iff_creator_witness :
    ∃ os2, linux_drop ⟨4, "a", true, true⟩ ⟨["a"], 0, 1⟩ = some os2 ∧
      "a" ∉ os2.names ∧
      (linux_open "a" 4 os2 ⟨false, false, false⟩).2 = .error .ENOENT :=
  (c8_drop_unlinks_iff_creator ⟨["a"], 0, 1⟩ ⟨4, "a", true, true⟩ 4
    ⟨false, false, false⟩ rfl).1 rfl

/-- Claim C9, counterexample: the crate never validates capacity.  With
the name present and every OS call succeeding, open with the negative
capacity -1 sign-extends it to the mmap length 2 ^ 64 - 1 and, since no
check rejects it and the oracle lets mmap succeed, returns a
constructed segment whose size field is -1 — no InvalidArgument error
and a violated capacity > 0 invariant. -/
theorem c9_open_accepts_negative_capacity :
    (linux_open "x" (-1) ⟨["x"], 0, 0⟩ ⟨false, false, false⟩).2 =
      .ok ⟨-1, "x", false, true⟩ :=
  rfl

/-- Claim C9, amended: there is no capacity check in the crate, so the
guarantees for non-positive capacity are only those the POSIX calls
force.  create with capacity <= 0 always fails (EINVAL from ftruncate
on a negative length or from mmap on length zero when no other failure
preempts it), open with capacity 0 always fails likewise, and the error
is the propagated OS errno, not a pre-validated InvalidArgument; open
with a negative capacity is passed through unvalidated (see the
counterexample). -/
theorem c9_create_nonpositive_capacity_fails
    (name : String) (size : Int) (os : OSState) (hsz : size ≤ 0) :
    (∀ orc, ∃ e, (linux_create name size os orc).2 = .error e) ∧
    (∀ orc, ∃ e, (linux_open name 0 os orc).2 = .error e) ∧
    (name ∉ os.names →
      (linux_create name size os ⟨false, false, false⟩).2 = .error .EINVAL) ∧
    (name ∈ os.names →
      (linux_open name 0 os ⟨false, false, false⟩).2 = .error .EINVAL) := by
  have hz : i32AsUsize 0 = 0 := rfl
  have hcase : size < 0 ∨ size = 0 := by omega
  refine ⟨fun orc => ?_, fun orc => ?_, fun hmem => ?_, fun hmem => ?_⟩
  · unfold linux_create
    rcases hcase with h | h <;>
      split_ifs <;> simp_all
  · unfold linux_open
    split_ifs <;> simp_all
  · unfold linux_create
    rcases hcase with h | h <;> split_ifs <;> simp_all
  · unfold linux_open
    split_ifs <;> simp_all

/-- Witness for c9_create_nonpositive_capacity_fails at capacity 0 on
an empty namespace with every optional OS failure switched off. -/
theorem c9_create_nonpositive_capacity_fails_witness :
    (0 : Int) ≤ 0 ∧
    (linux_create "x" 0 ⟨[], 0, 0⟩ ⟨false, false, false⟩).2 = .error .EINVAL :=
  ⟨le_refl 0,
    (c9_create_nonpositive_capacity_fails "x" 0 ⟨[], 0, 0⟩ (le_refl 0)).2.2.1
      (by simp)⟩

/-- Claim C10: writing the empty byte sequence runs the completed path
on every segment of positive capacity (capacity is an i32, hence below
2 ^ 31) whose region has exactly capacity bytes, and the resulting
region is entirely zero: with data_size = 0 the early check passes,
checked_sub returns the full size, and write_bytes zero-fills size
bytes from offset 0. -/
theorem c10_write_empty_zero_fills (self : SharedMemory)
    (hpos : 0 < self.size) (hsmall : self.size < 2147483648)
    (hlen : self.region.length = self.size.toNat) :
    SharedMemory.write_data self [] = .ok (List.replicate self.region.length 0) := by
  have hA : i32AsUsize self.size = self.size.toNat :=
    i32AsUsize_eq_toNat self.size (le_of_lt hpos) (by omega)
  have hU : self.size.toNat < USIZE := by
    unfold USIZE
    omega
  have hcs : i32CheckedSub self.size (usizeAsI32 0) = some self.size := by
    have h0 : usizeAsI32 0 = 0 := rfl
    rw [h0]
    unfold i32CheckedSub
    rw [if_pos ⟨by omega, by omega⟩]
    simp
  unfold SharedMemory.write_data
  simp only [List.length_nil, hA, hcs, usizeSub_zero self.size.toNat hU,
    Nat.not_lt_zero, if_false, Nat.zero_add, List.nil_append]
  rw [if_pos (by omega)]
  rw [← hlen, List.drop_length, List.append_nil]

/-- Witness for c10_write_empty_zero_fills on a concrete capacity-2
segment holding the bytes [7, 7]. -/
theorem c10_write_empty_zero_fills_witness :
    (0 : Int) < 2 ∧ (2 : Int) < 2147483648 ∧
    ([7, 7] : List Nat).length = (2 : Int).toNat ∧
    SharedMemory.write_data ⟨2, [7, 7]⟩ [] = .ok (List.replicate 2 0) :=
  ⟨by decide, by decide, by decide,
    c10_write_empty_zero_fills ⟨2, [7, 7]⟩ (by decide) (by decide) (by decide)⟩
